import Mathlib

/-!
Shallow embedding of the GMC-500 tool (src/gmc_tools.py and
src/gmc_Customgui.py) together with theorems checking the specification's
claims about the history-stream decoder, the save-mode table, the CPM
response decoding and the flash bulk reader.

Python exceptions are modelled by the `PyErr` type and fallible code returns
`Except PyErr _`.  Machine bytes are `Nat` values (history images are
`List Nat`); `datetime.datetime` values are modelled as absolute second
counts in the proleptic Gregorian calendar, on which Python's
`timedelta(minutes=1)` addition is addition of 60.
-/

/-- Python exception classes observed by the embedded code. -/
inductive PyErr where
  | indexError
  | valueError
  | typeError
  | nameError
  | systemExit
  deriving DecidableEq, Repr

/-- Entries of the Python row list `lst` in `bin_to_csv`: datetime values,
strings and ints (sample byte values and, on one path, byte indices). -/
inductive Cell where
  | time (t : Nat)
  | txt (s : String)
  | int (n : Nat)
  deriving DecidableEq, Repr

/-- Python `record[n]` on a bytes object: the byte, or IndexError. -/
def pyGet (l : List Nat) (n : Nat) : Except PyErr Nat :=
  match l[n]? with
  | some b => .ok b
  | none => .error .indexError

/-- Gregorian leap-year test. -/
def isLeap (y : Nat) : Bool :=
  (y % 4 == 0 && y % 100 != 0) || y % 400 == 0

/-- Days in month `m` of year `y`. -/
def daysInMonth (y m : Nat) : Nat :=
  if m == 2 then (if isLeap y then 29 else 28)
  else if m == 4 || m == 6 || m == 9 || m == 11 then 30
  else 31

/-- Days in the months of year `y` strictly before month `m`. -/
def daysBeforeMonth (y m : Nat) : Nat :=
  ((List.range (m - 1)).map (fun k => daysInMonth y (k + 1))).sum

/-- Days in the years strictly before year `y` (proleptic Gregorian). -/
def daysBeforeYear (y : Nat) : Nat :=
  (y - 1) * 365 + (y - 1) / 4 - (y - 1) / 100 + (y - 1) / 400

/-- A `datetime.datetime` value as an absolute second count. -/
def dtSeconds (y mo d h mi s : Nat) : Nat :=
  (((daysBeforeYear y + daysBeforeMonth y mo + d) * 24 + h) * 60 + mi) * 60 + s

/-- Field ranges accepted by `datetime.datetime.strptime` on the zero-padded
rendering `f"{y:04d}-{mo:02d}-{d:02d} {h:02d}:{mi:02d}:{s:02d}"`:
out-of-range fields make `strptime` raise ValueError. -/
def validDateTime (y mo d h mi s : Nat) : Bool :=
  1 ≤ mo && mo ≤ 12 && 1 ≤ d && d ≤ daysInMonth y mo && h ≤ 23 && mi ≤ 59 && s ≤ 59

/-- `create_record_time` (gmc_tools.py lines 223-239): reads the six
date-time bytes at offsets 3..8 of the given slice, renders
`f"20{year:02d}-..."` and parses it with `strptime` (ValueError when the
rendered string is rejected, which for byte fields means year > 99 or an
out-of-range calendar field). -/
def create_record_time (data : List Nat) : Except PyErr Nat := do
  let year ← pyGet data 3
  let month ← pyGet data 4
  let day ← pyGet data 5
  let hour ← pyGet data 6
  let minute ← pyGet data 7
  let second ← pyGet data 8
  if year ≤ 99 && validDateTime (2000 + year) month day hour minute second then
    pure (dtSeconds (2000 + year) month day hour minute second)
  else
    throw .valueError

/-- `get_save_type` (gmc_tools.py lines 242-272).  The `else` branch prints
an error and calls `sys.exit(1)`, i.e. raises SystemExit. -/
def get_save_type (save_type : Nat) : Except PyErr (String × Nat) :=
  if save_type = 0 then .ok ("history saving deactivated", 0)
  else if save_type = 1 then .ok ("Every Second", 1)
  else if save_type = 2 then .ok ("Every Minute", 60)
  else if save_type = 3 then .ok ("Every Hour", 3600)
  else if save_type = 4 then .ok ("Every Second if exceeding threshold", 1)
  else if save_type = 5 then .ok ("Every Minute if exceeding threshold", 60)
  else .error .systemExit

/-- The mutable state of one `bin_to_csv` run: the byte cursor `i`, the
per-row counter `cps`, the in-progress row list `lst`, the `store_data`
flag, the globals `record_time` / `save_txt` / `save_interval` (None while
unbound, reading an unbound one raises NameError), the dead counter
`counter_per_minute`, and the rows accumulated in `parsed_df`. -/
structure DecSt where
  i : Nat
  cps : Nat
  counter_per_minute : Nat
  lst : List Cell
  store_data : Bool
  record_time : Option Nat
  save_txt : Option String
  save_interval : Option Nat
  rows : List (List Cell)
  deriving DecidableEq, Repr

/-- Common tail of the timestamp-record branch (lines 319-328), run after
the timestamp `rt` has been parsed: clear a length-2 `lst`, append the
timestamp, set `store_data`, read the save-mode byte at `record[i+11]`
(two identical `get_save_type` calls in the source, one here), append its
text and advance the cursor by 12. -/
def tsTail (record : List Nat) (s : DecSt) (rt : Nat) : Except PyErr DecSt := do
  let lst0 := if s.lst.length == 2 then [] else s.lst
  let save_type ← pyGet record (s.i + 11)
  let st ← get_save_type save_type
  pure { s with record_time := some rt, store_data := true,
                save_txt := some st.1, save_interval := some st.2,
                lst := lst0 ++ [Cell.time rt] ++ [Cell.txt st.1], i := s.i + 12 }

/-- Timestamp-record branch of `bin_to_csv` (lines 309-328), for tag 0 or 5.
Tag 5 first advances the cursor by 4 and resets `cps` and `lst`; then both
tags parse `record[i:i+10]` with `create_record_time` and run `tsTail`. -/
def tsBranch (record : List Nat) (s : DecSt) (tag : Nat) : Except PyErr DecSt :=
  if tag == 5 then do
    let rt ← create_record_time ((record.drop (s.i + 4)).take 10)
    tsTail record { s with i := s.i + 4, cps := 0, lst := [] } rt
  else do
    let rt ← create_record_time ((record.drop s.i).take 10)
    tsTail record s rt

/-- Wide-value branch of `bin_to_csv` (lines 329-342, tag 1): reads the MSB
and LSB bytes, then evaluates
`datetime.datetime.fromtimestamp(record_time + counter_per_minute * save_interval)`;
`record_time` is a datetime (NameError when unbound), and adding an int to a
datetime raises TypeError, so this branch always raises and the following
`i += 4; counter_per_minute += 1` lines are unreachable. -/
def wideBranch (record : List Nat) (s : DecSt) : Except PyErr DecSt := do
  let _msb ← pyGet record (s.i + 3)
  let _lsb ← pyGet record (s.i + 4)
  match s.record_time with
  | none => throw .nameError
  | some _ =>
    match s.save_interval with
    | none => throw .nameError
    | some _ => throw .typeError

/-- The `0x55` dispatch of the scan loop (lines 307-348).  A `0x55` not
followed by `0xAA` is the literal branch: the source computes
`cpx = record[i]` (unused) and appends the byte index `i` — not the byte
value — to `lst` when `store_data` holds, then advances by 1 and increments
`cps` unconditionally.  A marker with a tag other than 0, 1 or 5 matches no
branch and leaves the state unchanged. -/
def scanByte (record : List Nat) (s : DecSt) : Except PyErr DecSt := do
  let b ← pyGet record s.i
  if b == 0x55 then do
    let b1 ← pyGet record (s.i + 1)
    if b1 == 0xAA then do
      let b2 ← pyGet record (s.i + 2)
      if b2 == 0 || b2 == 5 then tsBranch record s b2
      else if b2 == 1 then wideBranch record s
      else pure s
    else do
      let s := if s.store_data then { s with lst := s.lst ++ [Cell.int s.i] } else s
      pure { s with i := s.i + 1, cps := s.cps + 1 }
  else pure s

/-- Trailing part of each loop iteration (lines 349-352): when `store_data`
holds, append the byte now at the cursor and increment `cps`; then advance
the cursor by 1 in every case. -/
def trailing (record : List Nat) (s : DecSt) : Except PyErr DecSt :=
  if s.store_data then do
    let b ← pyGet record s.i
    pure { s with lst := s.lst ++ [Cell.int b], cps := s.cps + 1, i := s.i + 1 }
  else
    pure { s with i := s.i + 1 }

/-- Python `sum` over a slice of `lst`: 0 for the empty list, TypeError as
soon as a non-int entry is added. -/
def pySum : List Cell → Except PyErr Nat
  | [] => .ok 0
  | Cell.int n :: rest => (pySum rest).map (fun t => n + t)
  | _ => .error .typeError

/-- Row completion (lines 354-366), run when `cps == 60`:
`lst.insert(2, sum(lst[2:62]))`, then `parsed_df.loc[len(parsed_df)] = lst`
(pandas raises ValueError unless the list has exactly the 63 column values),
then reset `cps` and `lst`, advance `record_time` by one minute and seed the
next list with the new timestamp and `save_txt`. -/
def finalize (s : DecSt) : Except PyErr DecSt := do
  let total ← pySum ((s.lst.drop 2).take 60)
  if (s.lst.take 2 ++ Cell.int total :: s.lst.drop 2).length == 63 then
    match s.record_time with
    | none => throw .nameError
    | some rt =>
      match s.save_txt with
      | none => throw .nameError
      | some txt =>
        pure { s with rows := s.rows ++ [s.lst.take 2 ++ Cell.int total :: s.lst.drop 2],
                      cps := 0, record_time := some (rt + 60),
                      lst := [Cell.time (rt + 60), Cell.txt txt] }
  else throw .valueError

/-- End-of-data sentinel test (line 368) with Python's short-circuit `and`:
`record[i] == 255 and record[i+1] == 255 and record[i+2] == 255`. -/
def sentinelCheck (record : List Nat) (i : Nat) : Except PyErr Bool := do
  let b0 ← pyGet record i
  if b0 == 255 then do
    let b1 ← pyGet record (i + 1)
    if b1 == 255 then do
      let b2 ← pyGet record (i + 2)
      pure (b2 == 255)
    else pure false
  else pure false

/-- Outcome of one iteration of the scan loop: continue, or return the
accumulated rows (sentinel found, lines 368-371). -/
inductive StepRes where
  | cont (s : DecSt)
  | done (rows : List (List Cell))
  deriving DecidableEq, Repr

/-- The row-completion check (line 353-354): run `finalize` exactly when
the per-row counter `cps` equals 60. -/
def checkRow (s : DecSt) : Except PyErr DecSt :=
  if s.cps == 60 then finalize s else pure s

/-- One iteration of the `while i < data_length` loop of `bin_to_csv`
(lines 306-371). -/
def step (record : List Nat) (s : DecSt) : Except PyErr StepRes := do
  let s ← scanByte record s
  let s ← trailing record s
  let s ← checkRow s
  let stop ← sentinelCheck record s.i
  if stop then pure (.done s.rows) else pure (.cont s)

/-- State at entry of the scan loop (lines 287 and 298-301). -/
def initSt : DecSt :=
  { i := 0, cps := 0, counter_per_minute := 0, lst := [], store_data := false,
    record_time := none, save_txt := none, save_interval := none, rows := [] }

/-- The scan loop.  Every iteration advances `i` by at least 1, so fuel
`record.length` is enough; when the loop condition fails the accumulated
rows are written out (line 372). -/
def runAux (record : List Nat) : Nat → DecSt → Except PyErr (List (List Cell))
  | 0, s => .ok s.rows
  | fuel + 1, s =>
    if s.i < record.length then
      match step record s with
      | .error e => .error e
      | .ok (.done rows) => .ok rows
      | .ok (.cont s') => runAux record fuel s'
    else .ok s.rows

/-- `bin_to_csv` (lines 275-372) viewed as a function from the history image
to the parsed rows (or the Python exception that aborts the run). -/
def bin_to_csv (record : List Nat) : Except PyErr (List (List Cell)) :=
  runAux record record.length initSt

/-- `send_command` (gmc_tools.py lines 64-85) viewed at the transport level:
`ser.read(b_len)` returns the available response bytes truncated to `b_len`;
no check relates the returned length to `b_len`. -/
def send_command_model (available : List Nat) (b_len : Nat) : List Nat :=
  available.take b_len

/-- The response decode of `get_cpm` (gmc_tools.py lines 140-147):
`int(raw_cpm[2:4].hex(), 16)`.  Slicing clamps silently; `int('', 16)` on
the empty slice raises ValueError. -/
def get_cpm_decode (raw_cpm : List Nat) : Except PyErr Nat :=
  let sl := (raw_cpm.drop 2).take 2
  if sl.isEmpty then .error .valueError
  else .ok (sl.foldl (fun a b => a * 256 + b) 0)

/-- `get_cpm` as a function of the bytes available on the serial port. -/
def get_cpm_model (available : List Nat) : Except PyErr Nat :=
  get_cpm_decode (send_command_model available 4)

/-- Flash size constant shared by both source files. -/
def DEFAULT_FLASH_SIZE : Nat := 1048576

/-- The (address, length) pairs of the ReadFlashBlock requests issued by
`App.get_history` (gmc_Customgui.py lines 113-131):
`num_of_runs = int(DEFAULT_FLASH_SIZE / data_length)` and
`address = data_length * i` for `i in range(1, num_of_runs + 1)`. -/
def get_history_blocks (data_length : Nat) : List (Nat × Nat) :=
  (List.range (DEFAULT_FLASH_SIZE / data_length)).map
    (fun k => (data_length * (k + 1), data_length))

/-- The assembled history buffer `record`, given the response returned for
each block request (`record = record + data_page` per block). -/
def assemble_record (data_length : Nat) (resp : Nat × Nat → List Nat) : List Nat :=
  (get_history_blocks data_length).foldl (fun acc b => acc ++ resp b) []

/-- First sample time used by the concrete history images below:
2023-10-07 17:19:34, the timestamp encoded in their tag-0 marker. -/
def t0 : Nat := dtSeconds 2023 10 7 17 19 34

/-- History image exercising the literal-`0x55` branch: a tag-0 timestamp
record (mode 1), one sample byte 1, then `0x55` followed by 7 (not `0xAA`)
at byte index 13, then 57 samples of value 2 and the `0xFF` sentinel. -/
def c1img : List Nat :=
  [0x55, 0xAA, 0x00, 23, 10, 7, 17, 19, 34, 0x55, 0xAA, 1, 1, 0x55, 7]
    ++ List.replicate 57 2 ++ [255, 255, 255]

/-- The single row `bin_to_csv` produces for `c1img`: the literal `0x55` at
byte index 13 contributes the sample value 13 (its index), not 85. -/
def c1row : List Cell :=
  [Cell.time t0, Cell.txt "Every Second", Cell.int 135, Cell.int 1,
   Cell.int 13, Cell.int 7] ++ List.replicate 57 (Cell.int 2)

/-- History image with a wide-value record: tag-0 timestamp record (mode 1),
one sample byte 0, then `0x55 0xAA 0x01 0x01 0x2C` which the spec decodes to
the sample value 300. -/
def c2img : List Nat :=
  [0x55, 0xAA, 0x00, 23, 10, 7, 17, 19, 34, 0x55, 0xAA, 1, 0,
   0x55, 0xAA, 0x01, 0x01, 0x2C]

/-- History image with a clean 60-sample window: tag-0 timestamp record
(mode 1), 60 sample bytes of value 1, then the `0xFF` sentinel. -/
def c3img : List Nat :=
  [0x55, 0xAA, 0x00, 23, 10, 7, 17, 19, 34, 0x55, 0xAA, 1]
    ++ List.replicate 60 1 ++ [255, 255, 255]

/-- The single row produced for `c3img`. -/
def c3row : List Cell :=
  [Cell.time t0, Cell.txt "Every Second", Cell.int 60]
    ++ List.replicate 60 (Cell.int 1)

/-- Decoder state just before the row completion of `c3img`. -/
def c3preSt : DecSt :=
  { i := 72, cps := 60, counter_per_minute := 0,
    lst := [Cell.time t0, Cell.txt "Every Second"] ++ List.replicate 60 (Cell.int 1),
    store_data := true, record_time := some t0, save_txt := some "Every Second",
    save_interval := some 1, rows := [] }

/-- Decoder state just after the row completion of `c3img`. -/
def c3postSt : DecSt :=
  { i := 72, cps := 0, counter_per_minute := 0,
    lst := [Cell.time (t0 + 60), Cell.txt "Every Second"],
    store_data := true, record_time := some (t0 + 60), save_txt := some "Every Second",
    save_interval := some 1, rows := [c3row] }

/-- History image with one complete 60-sample window followed by a partial
window of 5 samples and then the `0xFF` sentinel. -/
def c5img : List Nat :=
  [0x55, 0xAA, 0x00, 23, 10, 7, 17, 19, 34, 0x55, 0xAA, 1]
    ++ List.replicate 60 1 ++ List.replicate 5 2 ++ [255, 255, 255]

/-- The single completed row of `c5img`; the 5-sample partial row is not
emitted. -/
def c5row : List Cell :=
  [Cell.time t0, Cell.txt "Every Second", Cell.int 60]
    ++ List.replicate 60 (Cell.int 1)

/-- A tag-0 timestamp record whose bytes at offsets 3..8 (what the code
reads) and at offsets 4..9 (what the claim says) both form valid but
different date-times; the save-mode byte at offset 11 is 2. -/
def c4img0 : List Nat :=
  [0x55, 0xAA, 0x00, 1, 1, 1, 2, 2, 2, 3, 0, 2]

/-- A tag-5 timestamp record whose bytes at offsets 7..12 (what the code
reads) and at offsets 4..9 (what the claim says) both form valid but
different date-times; the save-mode byte at offset 11 is 3 and the byte at
offset 15 (what the code reads) is 1, followed by one data byte and the
sentinel. -/
def c4img5 : List Nat :=
  [0x55, 0xAA, 0x05, 0, 1, 1, 1, 2, 2, 2, 3, 3, 3, 0, 0, 1, 9, 255, 255, 255]

/-- A row list as emitted at row completion: two header cells, the total,
then the per-second samples; the total equals the sum of the samples. -/
def wellFormedRow (row : List Cell) : Prop :=
  ∃ (c0 c1 : Cell) (samples : List Nat),
    row = c0 :: c1 :: Cell.int samples.sum :: samples.map Cell.int ∧
    samples.length = 60

set_option maxRecDepth 10000

deriving instance DecidableEq for Except

/-- Inversion of a successful `Except` bind. -/
lemma except_bind_ok {α β : Type} {e : Except PyErr α} {f : α → Except PyErr β} {b : β}
    (h : e >>= f = .ok b) : ∃ a, e = .ok a ∧ f a = .ok b := by
  cases e with
  | error err => simp [Bind.bind, Except.bind] at h
  | ok a => exact ⟨a, rfl, by simpa [Bind.bind, Except.bind] using h⟩

lemma pyGet_eq {l : List Nat} {n b : Nat} (h : l[n]? = some b) : pyGet l n = .ok b := by
  unfold pyGet; rw [h]

lemma pySum_ok {l : List Cell} {t : Nat} (h : pySum l = .ok t) :
    ∃ ns : List Nat, l = ns.map Cell.int ∧ t = ns.sum := by
  induction l generalizing t with
  | nil =>
    simp only [pySum] at h
    cases h
    exact ⟨[], rfl, rfl⟩
  | cons c rest ih =>
    cases c with
    | time u => simp [pySum] at h
    | txt u => simp [pySum] at h
    | int n =>
      simp only [pySum, Except.map] at h
      cases hrest : pySum rest with
      | error e => rw [hrest] at h; cases h
      | ok u =>
        rw [hrest] at h
        cases h
        obtain ⟨ns, rfl, rfl⟩ := ih hrest
        exact ⟨n :: ns, rfl, by simp⟩

lemma tsTail_rows {record : List Nat} {s : DecSt} {rt : Nat} {s' : DecSt}
    (h : tsTail record s rt = .ok s') : s'.rows = s.rows := by
  unfold tsTail at h
  obtain ⟨a, ha, h⟩ := except_bind_ok h
  obtain ⟨st, hst, h⟩ := except_bind_ok h
  cases h
  rfl

lemma tsBranch_rows {record : List Nat} {s : DecSt} {tag : Nat} {s' : DecSt}
    (h : tsBranch record s tag = .ok s') : s'.rows = s.rows := by
  unfold tsBranch at h
  split at h
  · obtain ⟨rt, hrt, h⟩ := except_bind_ok h
    have h2 := tsTail_rows h
    exact h2
  · obtain ⟨rt, hrt, h⟩ := except_bind_ok h
    exact tsTail_rows h

lemma wideBranch_no_ok {record : List Nat} {s : DecSt} {s' : DecSt}
    (h : wideBranch record s = .ok s') : False := by
  unfold wideBranch at h
  obtain ⟨a, ha, h⟩ := except_bind_ok h
  obtain ⟨b, hb, h⟩ := except_bind_ok h
  cases hrt : s.record_time with
  | none => rw [hrt] at h; cases h
  | some rt =>
    rw [hrt] at h
    cases hsi : s.save_interval with
    | none => rw [hsi] at h; cases h
    | some si => rw [hsi] at h; cases h

lemma scanByte_rows {record : List Nat} {s : DecSt} {s' : DecSt}
    (h : scanByte record s = .ok s') : s'.rows = s.rows := by
  unfold scanByte at h
  obtain ⟨b, hb, h⟩ := except_bind_ok h
  split at h
  · obtain ⟨b1, hb1, h⟩ := except_bind_ok h
    split at h
    · obtain ⟨b2, hb2, h⟩ := except_bind_ok h
      split at h
      · exact tsBranch_rows h
      · split at h
        · exact (wideBranch_no_ok h).elim
        · cases h; rfl
    · cases h; split <;> rfl
  · cases h; rfl

lemma trailing_rows {record : List Nat} {s : DecSt} {s' : DecSt}
    (h : trailing record s = .ok s') : s'.rows = s.rows := by
  unfold trailing at h
  split at h
  · obtain ⟨b, hb, h⟩ := except_bind_ok h
    cases h; rfl
  · cases h; rfl

/-- Full characterisation of a successful row completion. -/
lemma finalize_ok {s s' : DecSt} (h : finalize s = .ok s') :
    ∃ (c0 c1 : Cell) (samples : List Nat) (rt : Nat) (txt : String),
      s.lst = c0 :: c1 :: samples.map Cell.int ∧ samples.length = 60 ∧
      s.record_time = some rt ∧ s.save_txt = some txt ∧
      s' = { s with
             rows := s.rows ++ [c0 :: c1 :: Cell.int samples.sum :: samples.map Cell.int],
             cps := 0, record_time := some (rt + 60),
             lst := [Cell.time (rt + 60), Cell.txt txt] } := by
  unfold finalize at h
  obtain ⟨total, htot, h⟩ := except_bind_ok h
  obtain ⟨ns, hns, rfl⟩ := pySum_ok htot
  by_cases hlen : ((s.lst.take 2 ++ Cell.int ns.sum :: s.lst.drop 2).length == 63) = true
  · rw [if_pos hlen] at h
    have hlen62 : s.lst.length = 62 := by
      simp only [beq_iff_eq, List.length_append, List.length_take, List.length_cons,
        List.length_drop] at hlen
      omega
    cases hrt : s.record_time with
    | none => rw [hrt] at h; cases h
    | some rt =>
      rw [hrt] at h
      cases htxt : s.save_txt with
      | none => rw [htxt] at h; cases h
      | some txt =>
        rw [htxt] at h
        cases h
        have hcc : ∃ c0 c1 rest, s.lst = c0 :: c1 :: rest := by
          cases hl : s.lst with
          | nil => rw [hl] at hlen62; simp at hlen62
          | cons c0 u =>
            cases hu : u with
            | nil => rw [hl, hu] at hlen62; simp at hlen62
            | cons c1 r => exact ⟨c0, c1, r, rfl⟩
        obtain ⟨c0, c1, rest, hl⟩ := hcc
        have hrl : rest.length = 60 := by rw [hl] at hlen62; simpa using hlen62
        have hrest : rest = ns.map Cell.int := by
          have hdrop : s.lst.drop 2 = rest := by rw [hl]; rfl
          have h2 := hns
          rw [hdrop, List.take_of_length_le (le_of_eq hrl)] at h2
          exact h2
        have hns60 : ns.length = 60 := by
          rw [hrest] at hrl; simpa using hrl
        refine ⟨c0, c1, ns, rt, txt, ?_, hns60, rfl, rfl, ?_⟩
        · rw [hl, hrest]
        · rw [hl, hrest]
          try rfl
  · rw [if_neg hlen] at h
    cases h

/-- Any successful loop iteration leaves the accumulated rows unchanged or
extends them by exactly one well-formed row (emptying the counter); the
`done` outcome returns exactly the accumulated rows. -/
lemma step_core {record : List Nat} {s : DecSt} {out : StepRes}
    (h : step record s = .ok out) :
    ∃ s3, (out = .cont s3 ∨ out = .done s3.rows) ∧
      (s3.rows = s.rows ∨
        ∃ row, s3.rows = s.rows ++ [row] ∧ wellFormedRow row ∧ s3.cps = 0) := by
  unfold step at h
  obtain ⟨s1, h1, h⟩ := except_bind_ok h
  obtain ⟨s2, h2, h⟩ := except_bind_ok h
  obtain ⟨s3, h3, h⟩ := except_bind_ok h
  obtain ⟨stop, hst, h⟩ := except_bind_ok h
  have hr12 : s2.rows = s.rows := by rw [trailing_rows h2, scanByte_rows h1]
  have hrows : s3.rows = s.rows ∨
      ∃ row, s3.rows = s.rows ++ [row] ∧ wellFormedRow row ∧ s3.cps = 0 := by
    unfold checkRow at h3
    split at h3
    · obtain ⟨c0, c1, samples, rt, txt, hlst, hlen, hrt, htxt, rfl⟩ := finalize_ok h3
      exact Or.inr ⟨c0 :: c1 :: Cell.int samples.sum :: samples.map Cell.int,
        by simp [hr12], ⟨c0, c1, samples, rfl, hlen⟩, rfl⟩
    · cases h3
      exact Or.inl hr12
  refine ⟨s3, ?_, hrows⟩
  split at h
  · cases h; exact Or.inr rfl
  · cases h; exact Or.inl rfl

lemma step_done_rows {record : List Nat} {s : DecSt} {rows : List (List Cell)}
    (h : step record s = .ok (.done rows)) :
    rows = s.rows ∨ ∃ row, rows = s.rows ++ [row] ∧ wellFormedRow row := by
  obtain ⟨s3, hout, hrows⟩ := step_core h
  rcases hout with h2 | h2
  · cases h2
  · cases h2
    rcases hrows with h1 | ⟨row, h1, hw, h0⟩
    · exact Or.inl h1
    · exact Or.inr ⟨row, h1, hw⟩

lemma step_cont_rows {record : List Nat} {s : DecSt} {s' : DecSt}
    (h : step record s = .ok (.cont s')) :
    s'.rows = s.rows ∨ ∃ row, s'.rows = s.rows ++ [row] ∧ wellFormedRow row ∧ s'.cps = 0 := by
  obtain ⟨s3, hout, hrows⟩ := step_core h
  rcases hout with h2 | h2
  · cases h2
    exact hrows
  · cases h2

lemma runAux_wf {record : List Nat} {fuel : Nat} {s : DecSt} {rows : List (List Cell)}
    (hs : ∀ r ∈ s.rows, wellFormedRow r) (h : runAux record fuel s = .ok rows) :
    ∀ r ∈ rows, wellFormedRow r := by
  induction fuel generalizing s with
  | zero =>
    unfold runAux at h
    cases h
    exact hs
  | succ n ih =>
    unfold runAux at h
    split at h
    · cases hstep : step record s with
      | error e => rw [hstep] at h; cases h
      | ok out =>
        rw [hstep] at h
        cases out with
        | done rows2 =>
          cases h
          intro r hr
          rcases step_done_rows hstep with h1 | ⟨row, h1, h2⟩
          · rw [h1] at hr; exact hs r hr
          · rw [h1] at hr
            rcases List.mem_append.mp hr with hr2 | hr2
            · exact hs r hr2
            · rw [List.mem_singleton.mp hr2]; exact h2
        | cont s2 =>
          apply ih ?_ h
          intro r hr
          rcases step_cont_rows hstep with h1 | ⟨row, h1, h2, h3⟩
          · rw [h1] at hr; exact hs r hr
          · rw [h1] at hr
            rcases List.mem_append.mp hr with hr2 | hr2
            · exact hs r hr2
            · rw [List.mem_singleton.mp hr2]; exact h2
    · cases h; exact hs

lemma bin_to_csv_wf {record : List Nat} {rows : List (List Cell)}
    (h : bin_to_csv record = .ok rows) : ∀ r ∈ rows, wellFormedRow r := by
  apply runAux_wf ?_ h
  intro r hr
  cases hr

lemma ok_bind {α β : Type} (a : α) (f : α → Except PyErr β) :
    (Except.ok a >>= f) = f a := rfl

lemma slice_getElem? {l : List Nat} {i k b : Nat} (hk : k < 10)
    (h : l[i + k]? = some b) : ((l.drop i).take 10)[k]? = some b := by
  rw [List.getElem?_take_of_lt hk, List.getElem?_drop]
  exact h

lemma create_record_time_eq {data : List Nat} {y mo d h mi sec : Nat}
    (h3 : data[3]? = some y) (h4 : data[4]? = some mo) (h5 : data[5]? = some d)
    (h6 : data[6]? = some h) (h7 : data[7]? = some mi) (h8 : data[8]? = some sec)
    (hv : (y ≤ 99 && validDateTime (2000 + y) mo d h mi sec) = true) :
    create_record_time data = .ok (dtSeconds (2000 + y) mo d h mi sec) := by
  unfold create_record_time
  rw [pyGet_eq h3, ok_bind, pyGet_eq h4, ok_bind, pyGet_eq h5, ok_bind,
      pyGet_eq h6, ok_bind, pyGet_eq h7, ok_bind, pyGet_eq h8, ok_bind]
  rw [if_pos hv]
  rfl

lemma tsTail_eq {record : List Nat} {s : DecSt} {rt mode intv : Nat} {txt : String}
    (h11 : record[s.i + 11]? = some mode)
    (hsv : get_save_type mode = .ok (txt, intv)) :
    tsTail record s rt = .ok { s with
      record_time := some rt, store_data := true,
      save_txt := some txt, save_interval := some intv,
      lst := (if s.lst.length == 2 then [] else s.lst) ++ [Cell.time rt] ++ [Cell.txt txt],
      i := s.i + 12 } := by
  unfold tsTail
  rw [pyGet_eq h11, ok_bind, hsv, ok_bind]
  rfl

lemma tsBranch_tag0 {record : List Nat} {s : DecSt}
    {y mo d hh mi sec mode intv : Nat} {txt : String}
    (h3 : record[s.i + 3]? = some y) (h4 : record[s.i + 4]? = some mo)
    (h5 : record[s.i + 5]? = some d) (h6 : record[s.i + 6]? = some hh)
    (h7 : record[s.i + 7]? = some mi) (h8 : record[s.i + 8]? = some sec)
    (hv : (y ≤ 99 && validDateTime (2000 + y) mo d hh mi sec) = true)
    (h11 : record[s.i + 11]? = some mode)
    (hsv : get_save_type mode = .ok (txt, intv)) :
    tsBranch record s 0 = .ok { s with
      record_time := some (dtSeconds (2000 + y) mo d hh mi sec),
      store_data := true, save_txt := some txt, save_interval := some intv,
      lst := (if s.lst.length == 2 then [] else s.lst)
               ++ [Cell.time (dtSeconds (2000 + y) mo d hh mi sec)]
               ++ [Cell.txt txt],
      i := s.i + 12 } := by
  unfold tsBranch
  rw [if_neg (by decide)]
  rw [create_record_time_eq (slice_getElem? (by decide) h3) (slice_getElem? (by decide) h4)
        (slice_getElem? (by decide) h5) (slice_getElem? (by decide) h6)
        (slice_getElem? (by decide) h7) (slice_getElem? (by decide) h8) hv, ok_bind]
  rw [tsTail_eq h11 hsv]

lemma tsBranch_tag5 {record : List Nat} {s : DecSt}
    {y mo d hh mi sec mode intv : Nat} {txt : String}
    (h7 : record[s.i + 7]? = some y) (h8 : record[s.i + 8]? = some mo)
    (h9 : record[s.i + 9]? = some d) (h10 : record[s.i + 10]? = some hh)
    (h11 : record[s.i + 11]? = some mi) (h12 : record[s.i + 12]? = some sec)
    (hv : (y ≤ 99 && validDateTime (2000 + y) mo d hh mi sec) = true)
    (h15 : record[s.i + 15]? = some mode)
    (hsv : get_save_type mode = .ok (txt, intv)) :
    tsBranch record s 5 = .ok { s with
      record_time := some (dtSeconds (2000 + y) mo d hh mi sec),
      store_data := true, save_txt := some txt, save_interval := some intv,
      cps := 0,
      lst := [Cell.time (dtSeconds (2000 + y) mo d hh mi sec)] ++ [Cell.txt txt],
      i := s.i + 16 } := by
  unfold tsBranch
  rw [if_pos (by decide)]
  rw [create_record_time_eq
        (slice_getElem? (by decide) (show record[s.i + 4 + 3]? = some y from h7))
        (slice_getElem? (by decide) (show record[s.i + 4 + 4]? = some mo from h8))
        (slice_getElem? (by decide) (show record[s.i + 4 + 5]? = some d from h9))
        (slice_getElem? (by decide) (show record[s.i + 4 + 6]? = some hh from h10))
        (slice_getElem? (by decide) (show record[s.i + 4 + 7]? = some mi from h11))
        (slice_getElem? (by decide) (show record[s.i + 4 + 8]? = some sec from h12))
        hv, ok_bind]
  rw [tsTail_eq (s := { s with i := s.i + 4, cps := 0, lst := [] })
        (show record[s.i + 4 + 11]? = some mode from h15) hsv]
  rfl

/-- C1: decoding `c1img`, whose byte at index 13 is a literal `0x55`
followed by 7, yields a row whose corresponding sample is the byte index 13
rather than the byte value `0x55` = 85 (line 346 appends `i`, not the
unused `cpx = record[i]`); the same loop iteration also consumes the
following byte 7 without a marker check.  This contradicts the claim that
the literal is appended as one sample of value `0x55`. -/
theorem c1_literal_0x55_appends_index :
    bin_to_csv c1img = .ok [c1row] ∧
    Cell.int 13 ∈ c1row ∧ Cell.int 0x55 ∉ c1row := by
  refine ⟨by decide, by decide, by decide⟩

/-- C2: decoding `c2img`, which contains the wide-value record
`0x55 0xAA 0x01 0x01 0x2C` after a timestamp record, aborts with the
TypeError raised by `record_time + counter_per_minute * save_interval`
(datetime plus int, line 336-338); the decoded value 300 is only printed
and never appended, contradicting the claim that one sample of value 300
is appended. -/
theorem c2_wide_value_raises :
    bin_to_csv c2img = .error .typeError := by decide

/-- C3: every row `bin_to_csv` returns has exactly 60 samples whose sum is
the stored total; a successful row completion (`finalize`) consumes a
62-entry list, emits exactly one such row, resets the counter and the list
and advances the held timestamp by one minute (60 seconds); a scan step
only extends the rows by one well-formed row with the counter reset, and
row completion is skipped whenever the counter differs from 60. -/
theorem c3_row_invariant :
    (∀ (record : List Nat) (rows : List (List Cell)),
      bin_to_csv record = .ok rows → ∀ row ∈ rows, wellFormedRow row) ∧
    (∀ s s' : DecSt, finalize s = .ok s' →
      ∃ (c0 c1 : Cell) (samples : List Nat) (rt : Nat) (txt : String),
        s.lst = c0 :: c1 :: samples.map Cell.int ∧ samples.length = 60 ∧
        s.record_time = some rt ∧ s.save_txt = some txt ∧
        s' = { s with
               rows := s.rows ++ [c0 :: c1 :: Cell.int samples.sum :: samples.map Cell.int],
               cps := 0, record_time := some (rt + 60),
               lst := [Cell.time (rt + 60), Cell.txt txt] }) ∧
    (∀ (record : List Nat) (s s' : DecSt), step record s = .ok (.cont s') →
      s'.rows = s.rows ∨
        ∃ row, s'.rows = s.rows ++ [row] ∧ wellFormedRow row ∧ s'.cps = 0) ∧
    (∀ s : DecSt, ¬s.cps = 60 → checkRow s = .ok s) := by
  refine ⟨fun _ _ h => bin_to_csv_wf h, fun _ _ h => finalize_ok h,
    fun _ _ _ h => step_cont_rows h, fun s h => ?_⟩
  unfold checkRow
  rw [if_neg (by simpa using h)]
  rfl

/-- C3 witness: the invariant instantiated on the concrete image `c3img`,
on the concrete row completion `c3preSt` to `c3postSt`, on a concrete scan
step, and on the initial state whose counter is 0. -/
theorem c3_row_invariant_witness :
    wellFormedRow c3row ∧
    (∃ (c0 c1 : Cell) (samples : List Nat) (rt : Nat) (txt : String),
      c3preSt.lst = c0 :: c1 :: samples.map Cell.int ∧ samples.length = 60 ∧
      c3preSt.record_time = some rt ∧ c3preSt.save_txt = some txt ∧
      c3postSt = { c3preSt with
                   rows := c3preSt.rows
                     ++ [c0 :: c1 :: Cell.int samples.sum :: samples.map Cell.int],
                   cps := 0, record_time := some (rt + 60),
                   lst := [Cell.time (rt + 60), Cell.txt txt] }) ∧
    (({ initSt with i := 1 } : DecSt).rows = initSt.rows ∨
      ∃ row, ({ initSt with i := 1 } : DecSt).rows = initSt.rows ++ [row] ∧
        wellFormedRow row ∧ ({ initSt with i := 1 } : DecSt).cps = 0) ∧
    checkRow initSt = .ok initSt :=
  ⟨c3_row_invariant.1 c3img [c3row] (by decide) c3row (List.mem_singleton.mpr rfl),
   c3_row_invariant.2.1 c3preSt c3postSt (by decide),
   c3_row_invariant.2.2.1 [0, 0] initSt { initSt with i := 1 } (by decide),
   c3_row_invariant.2.2.2 initSt (by decide)⟩

/-- C4 counterexample: on the tag-5 image `c4img5` the decoder stores the
timestamp parsed from bytes 7..12 (2002-02-02 03:03:03), the save mode from
byte 15 (interval 1), and sets the cursor to 16 — not the fields at offset
4, the mode at offset 11 (which decodes to interval 3600) or cursor 12 the
claim requires; on the tag-0 image `c4img0` the fields come from bytes 3..8
(2001-01-01 02:02:02), not bytes 4..9 (which parse to the different valid
date-time 2001-01-02 02:02:03). -/
theorem c4_offsets_counterexample :
    scanByte c4img5 initSt = .ok { initSt with
      i := 16, cps := 0,
      lst := [Cell.time (dtSeconds 2002 2 2 3 3 3), Cell.txt "Every Second"],
      store_data := true, record_time := some (dtSeconds 2002 2 2 3 3 3),
      save_txt := some "Every Second", save_interval := some 1 } ∧
    dtSeconds 2002 2 2 3 3 3 ≠ dtSeconds 2001 1 1 2 2 2 ∧
    get_save_type 3 = .ok ("Every Hour", 3600) ∧
    scanByte c4img0 initSt = .ok { initSt with
      i := 12,
      lst := [Cell.time (dtSeconds 2001 1 1 2 2 2), Cell.txt "Every Minute"],
      store_data := true, record_time := some (dtSeconds 2001 1 1 2 2 2),
      save_txt := some "Every Minute", save_interval := some 60 } ∧
    dtSeconds 2001 1 1 2 2 2 ≠ dtSeconds 2001 1 2 2 2 3 := by
  refine ⟨by decide, by decide, by decide, by decide, by decide⟩

/-- C4 amended: for tag 0x00 the decoder reads the six date-time fields at
offsets 3..8 from the marker start, the SaveMode byte at offset 11, and
sets the cursor to marker start + 12, leaving the counter untouched; for
tag 0x05 it first advances 4 bytes and resets the sample list and counter,
reads the fields at offsets 7..12, the SaveMode byte at offset 15, and sets
the cursor to marker start + 16.  The offsets and final cursor differ
between the two tags. -/
theorem c4_timestamp_offsets :
    (∀ (record : List Nat) (s : DecSt) (y mo d hh mi sec mode intv : Nat) (txt : String),
      record[s.i + 3]? = some y → record[s.i + 4]? = some mo →
      record[s.i + 5]? = some d → record[s.i + 6]? = some hh →
      record[s.i + 7]? = some mi → record[s.i + 8]? = some sec →
      (y ≤ 99 && validDateTime (2000 + y) mo d hh mi sec) = true →
      record[s.i + 11]? = some mode →
      get_save_type mode = .ok (txt, intv) →
      tsBranch record s 0 = .ok { s with
        record_time := some (dtSeconds (2000 + y) mo d hh mi sec),
        store_data := true, save_txt := some txt, save_interval := some intv,
        lst := (if s.lst.length == 2 then [] else s.lst)
                 ++ [Cell.time (dtSeconds (2000 + y) mo d hh mi sec)]
                 ++ [Cell.txt txt],
        i := s.i + 12 }) ∧
    (∀ (record : List Nat) (s : DecSt) (y mo d hh mi sec mode intv : Nat) (txt : String),
      record[s.i + 7]? = some y → record[s.i + 8]? = some mo →
      record[s.i + 9]? = some d → record[s.i + 10]? = some hh →
      record[s.i + 11]? = some mi → record[s.i + 12]? = some sec →
      (y ≤ 99 && validDateTime (2000 + y) mo d hh mi sec) = true →
      record[s.i + 15]? = some mode →
      get_save_type mode = .ok (txt, intv) →
      tsBranch record s 5 = .ok { s with
        record_time := some (dtSeconds (2000 + y) mo d hh mi sec),
        store_data := true, save_txt := some txt, save_interval := some intv,
        cps := 0,
        lst := [Cell.time (dtSeconds (2000 + y) mo d hh mi sec)] ++ [Cell.txt txt],
        i := s.i + 16 }) :=
  ⟨fun _ _ _ _ _ _ _ _ _ _ _ h3 h4 h5 h6 h7 h8 hv h11 hsv =>
    tsBranch_tag0 h3 h4 h5 h6 h7 h8 hv h11 hsv,
   fun _ _ _ _ _ _ _ _ _ _ _ h7 h8 h9 h10 h11 h12 hv h15 hsv =>
    tsBranch_tag5 h7 h8 h9 h10 h11 h12 hv h15 hsv⟩

/-- C4 witness: the two timestamp-record equations instantiated on the
concrete images `c4img0` and `c4img5` at the initial state. -/
theorem c4_timestamp_offsets_witness :
    tsBranch c4img0 initSt 0 = .ok { initSt with
      record_time := some (dtSeconds 2001 1 1 2 2 2),
      store_data := true, save_txt := some "Every Minute", save_interval := some 60,
      lst := [Cell.time (dtSeconds 2001 1 1 2 2 2), Cell.txt "Every Minute"],
      i := 12 } ∧
    tsBranch c4img5 initSt 5 = .ok { initSt with
      record_time := some (dtSeconds 2002 2 2 3 3 3),
      store_data := true, save_txt := some "Every Second", save_interval := some 1,
      cps := 0,
      lst := [Cell.time (dtSeconds 2002 2 2 3 3 3), Cell.txt "Every Second"],
      i := 16 } :=
  ⟨c4_timestamp_offsets.1 c4img0 initSt 1 1 1 2 2 2 2 60 "Every Minute"
      (by decide) (by decide) (by decide) (by decide) (by decide) (by decide)
      (by decide) (by decide) (by decide),
   c4_timestamp_offsets.2 c4img5 initSt 2 2 2 3 3 3 1 1 "Every Second"
      (by decide) (by decide) (by decide) (by decide) (by decide) (by decide)
      (by decide) (by decide) (by decide)⟩

/-- C5 counterexample: on the image consisting of exactly three `0xFF`
bytes — three consecutive `0xFF` at the decoder's cursor position 0 — the
decoder does not stop and return the empty row list: it first consumes one
byte and its end-of-data check then reads past the end of the image,
raising IndexError. -/
theorem c5_sentinel_counterexample :
    bin_to_csv [255, 255, 255] = .error .indexError := by decide

/-- C5 amended: the sentinel is checked at the cursor reached at the end of
each iteration; whenever an iteration ends in `done`, the returned rows are
exactly the rows accumulated so far (plus at most the one row completed in
that same iteration) and the in-progress partial list is dropped.  On
`c5img` (one full window, then a 5-sample partial window, then the
sentinel) exactly the one completed row is returned, and on an image of
four `0xFF` bytes the scan stops after consuming one byte with no rows. -/
theorem c5_sentinel_truncation :
    (∀ (record : List Nat) (s : DecSt) (rows : List (List Cell)),
      step record s = .ok (.done rows) →
      rows = s.rows ∨ ∃ row, rows = s.rows ++ [row] ∧ wellFormedRow row) ∧
    bin_to_csv c5img = .ok [c5row] ∧
    bin_to_csv [255, 255, 255, 255] = .ok [] :=
  ⟨fun _ _ _ h => step_done_rows h, by decide, by decide⟩

/-- C5 witness: the `done` characterisation instantiated on the concrete
image of four `0xFF` bytes at the initial state. -/
theorem c5_sentinel_truncation_witness :
    ([] : List (List Cell)) = initSt.rows ∨
      ∃ row, ([] : List (List Cell)) = initSt.rows ++ [row] ∧ wellFormedRow row :=
  c5_sentinel_truncation.1 [255, 255, 255, 255] initSt [] (by decide)

/-- C10 counterexample: decoding the one-byte image `[0x00]` faults — the
end-of-data check reads `record[1]` unconditionally — rather than
completing the scan, so the scan is not total and does access positions
beyond the image. -/
theorem c10_oob_counterexample :
    bin_to_csv [0] = .error .indexError := by decide

/-- C10 amended: the scan reads the marker lookahead and the end-of-data
check bytes without bounds guards, so it faults with IndexError on images
that end before those reads (`[0x55]` faults on the lookahead at cursor+1,
`[0x00, 0x00]` faults on the end-of-data check), while an image whose scan
reaches an in-bounds `0xFF 0xFF 0xFF` sentinel decodes successfully. -/
theorem c10_scan_partiality :
    bin_to_csv [0x55] = .error .indexError ∧
    bin_to_csv [0x00, 0x00] = .error .indexError ∧
    bin_to_csv [0x00, 255, 255, 255] = .ok [] := by
  refine ⟨by decide, by decide, by decide⟩

/-- C6 counterexample: a 3-byte response to the 4-byte GETCPM request is
decoded to a CPM value (here 2) with no length validation and no framing
failure, contradicting the claim that every response of the wrong length
fails with a framing error before any field decode. -/
theorem c6_no_framing_check_counterexample :
    ([0, 1, 2] : List Nat).length ≠ 4 ∧ get_cpm_model [0, 1, 2] = .ok 2 := by
  refine ⟨by decide, by decide⟩

/-- C6 amended: no response-length check exists anywhere; `get_cpm` slices
`raw_cpm[2:4]` directly, so a 3-byte response silently decodes to its third
byte, a response of 4 or more bytes decodes bytes 2..4 big-endian, and a
response of at most 2 bytes raises ValueError from `int('', 16)` during the
decode itself. -/
theorem c6_cpm_decode_behavior :
    (∀ a b c : Nat, get_cpm_decode [a, b, c] = .ok c) ∧
    (∀ (a b c d : Nat) (rest : List Nat),
      get_cpm_decode (a :: b :: c :: d :: rest) = .ok (c * 256 + d)) ∧
    (∀ raw : List Nat, raw.length ≤ 2 → get_cpm_decode raw = .error .valueError) := by
  refine ⟨fun a b c => by simp [get_cpm_decode],
          fun a b c d rest => by simp [get_cpm_decode],
          fun raw h => by simp [get_cpm_decode, List.drop_eq_nil_of_le h]⟩

/-- C6 witness: the decode behaviour instantiated on concrete response
buffers of lengths 3, 4 and 1. -/
theorem c6_cpm_decode_behavior_witness :
    get_cpm_decode [9, 9, 7] = .ok 7 ∧
    get_cpm_decode [1, 2, 3, 4] = .ok (3 * 256 + 4) ∧
    get_cpm_decode [7] = .error .valueError :=
  ⟨c6_cpm_decode_behavior.1 9 9 7,
   c6_cpm_decode_behavior.2.1 1 2 3 4 [],
   c6_cpm_decode_behavior.2.2 [7] (by decide)⟩

lemma foldl_append_length (resp : Nat × Nat → List Nat) :
    ∀ (l : List (Nat × Nat)) (acc : List Nat),
      (l.foldl (fun a b => a ++ resp b) acc).length
        = acc.length + (l.map (fun b => (resp b).length)).sum := by
  intro l
  induction l with
  | nil => intro acc; simp
  | cons b t ih =>
    intro acc
    simp only [List.foldl_cons, List.map_cons, List.sum_cons, ih, List.length_append]
    omega

/-- C7: the flash bulk read issues exactly 256 requests whose addresses are
`4096 * (k+1)` for `k < 256` — strictly increasing from 4096 to 1048576 —
each of length 4096, and when every response has the requested length the
assembled buffer has exactly `DEFAULT_FLASH_SIZE` bytes. -/
theorem c7_flash_bulk_read :
    (get_history_blocks 4096).length = 256 ∧
    (get_history_blocks 4096).map Prod.fst
      = (List.range 256).map (fun k => 4096 * (k + 1)) ∧
    ((get_history_blocks 4096).map Prod.fst).Pairwise (· < ·) ∧
    (∀ b ∈ get_history_blocks 4096, b.2 = 4096) ∧
    ((get_history_blocks 4096).map Prod.fst).head? = some 4096 ∧
    ((get_history_blocks 4096).map Prod.fst).getLast? = some 1048576 ∧
    (∀ resp : Nat × Nat → List Nat,
      (∀ b ∈ get_history_blocks 4096, (resp b).length = b.2) →
      (assemble_record 4096 resp).length = DEFAULT_FLASH_SIZE) := by
  refine ⟨by decide, by decide, ?_, ?_, by decide, by decide, ?_⟩
  · have h : (get_history_blocks 4096).map Prod.fst
        = (List.range 256).map (fun k => 4096 * (k + 1)) := by decide
    rw [h]
    exact (List.pairwise_lt_range 256).map _ (fun a b hab => by omega)
  · intro b hb
    simp only [get_history_blocks, List.mem_map] at hb
    obtain ⟨k, _, rfl⟩ := hb
    rfl
  · intro resp hresp
    unfold assemble_record
    rw [foldl_append_length]
    rw [List.map_congr_left (fun b hb => hresp b hb)]
    decide

/-- C7 witness: the per-block length fact at the first block and the
assembled length with every response filled to the requested length. -/
theorem c7_flash_bulk_read_witness :
    ((4096, 4096) : Nat × Nat).2 = 4096 ∧
    (assemble_record 4096 (fun b => List.replicate b.2 0)).length
      = DEFAULT_FLASH_SIZE :=
  ⟨c7_flash_bulk_read.2.2.2.1 (4096, 4096) (by decide),
   c7_flash_bulk_read.2.2.2.2.2.2 (fun b => List.replicate b.2 0)
     (fun b _ => by simp)⟩

/-- C8 counterexample: the 256th request has address 1048576 = flash size,
violating both `address < flash size` and `address + length ≤ flash size`
(it reads the 4096 bytes beyond the end of the 1 MiB flash). -/
theorem c8_last_block_counterexample :
    ((1048576, 4096) : Nat × Nat) ∈ get_history_blocks 4096 ∧
    ¬(1048576 < DEFAULT_FLASH_SIZE) ∧
    ¬(1048576 + 4096 ≤ DEFAULT_FLASH_SIZE) := by
  refine ⟨by decide, by decide, by decide⟩

/-- C8 amended: every issued request has an address that is a positive
multiple of 4096 with `4096 ≤ address ≤ flash size` (so bytes 0..4095 are
never requested), and `address + length ≤ flash size` holds exactly for the
requests other than the final one, whose address equals the flash size. -/
theorem c8_block_invariants :
    ∀ b ∈ get_history_blocks 4096,
      4096 ≤ b.1 ∧ b.1 ≤ DEFAULT_FLASH_SIZE ∧ b.1 % 4096 = 0 ∧ b.2 = 4096 ∧
      (b.1 + b.2 ≤ DEFAULT_FLASH_SIZE ↔ b.1 ≠ DEFAULT_FLASH_SIZE) := by
  intro b hb
  simp only [get_history_blocks, List.mem_map, List.mem_range,
    DEFAULT_FLASH_SIZE] at hb ⊢
  obtain ⟨k, hk, rfl⟩ := hb
  norm_num at hk
  refine ⟨by omega, by omega, by omega, rfl, by constructor <;> intro h <;> omega⟩

/-- C8 witness: the invariants instantiated at the second block request. -/
theorem c8_block_invariants_witness :
    4096 ≤ ((8192, 4096) : Nat × Nat).1 ∧
    ((8192, 4096) : Nat × Nat).1 ≤ DEFAULT_FLASH_SIZE ∧
    ((8192, 4096) : Nat × Nat).1 % 4096 = 0 ∧
    ((8192, 4096) : Nat × Nat).2 = 4096 ∧
    (((8192, 4096) : Nat × Nat).1 + ((8192, 4096) : Nat × Nat).2 ≤ DEFAULT_FLASH_SIZE
      ↔ ((8192, 4096) : Nat × Nat).1 ≠ DEFAULT_FLASH_SIZE) :=
  c8_block_invariants (8192, 4096) (by decide)

/-- C9: `get_save_type` maps the codes 0..5 to exactly the documented texts
and the intervals 0, 1, 60, 3600, 1, 60, and every code above 5 produces
the SystemExit error raised by `sys.exit(1)` rather than a silent
default. -/
theorem c9_save_mode_mapping :
    get_save_type 0 = .ok ("history saving deactivated", 0) ∧
    get_save_type 1 = .ok ("Every Second", 1) ∧
    get_save_type 2 = .ok ("Every Minute", 60) ∧
    get_save_type 3 = .ok ("Every Hour", 3600) ∧
    get_save_type 4 = .ok ("Every Second if exceeding threshold", 1) ∧
    get_save_type 5 = .ok ("Every Minute if exceeding threshold", 60) ∧
    (∀ c : Nat, 5 < c → get_save_type c = .error .systemExit) := by
  refine ⟨rfl, rfl, rfl, rfl, rfl, rfl, fun c hc => ?_⟩
  unfold get_save_type
  rw [if_neg (by omega), if_neg (by omega), if_neg (by omega),
      if_neg (by omega), if_neg (by omega), if_neg (by omega)]

/-- C9 witness: the error case instantiated at the unknown code 6. -/
theorem c9_save_mode_mapping_witness :
    get_save_type 6 = .error .systemExit :=
  c9_save_mode_mapping.2.2.2.2.2.2 6 (by decide)
